import Mathlib

/-
Verification of the resource adapters of controlant-org/terraform-provider-aws.

Shallow embedding: each CRUD callback is translated into a pure Lean function.
Effectful SDK calls are modelled by passing their observable outcomes as
explicit parameters (an `Option AwsError` for calls whose payload is unused,
an `Except AwsError α` for calls whose payload is consumed); the schema field
accessors of the excluded plugin framework become plain function arguments,
and the state written back through `d.Set`/`d.SetId` becomes the function's
result.  Error values returned by `fmt.Errorf` become `String` messages built
by the same concatenations.
-/

/-- An AWS API error as seen through `tfawserr`: a service error code plus a message. -/
structure AwsError where
  code : String
  message : String
deriving DecidableEq

/-- Whether the character list `sub` is an initial segment of `l`. -/
def startsWithChars : List Char → List Char → Bool
  | _, [] => true
  | [], _ :: _ => false
  | c :: cs, d :: ds => c == d && startsWithChars cs ds

/-- Whether the character list `sub` occurs contiguously inside `l`. -/
def containsChars : List Char → List Char → Bool
  | [], sub => startsWithChars [] sub
  | c :: cs, sub => startsWithChars (c :: cs) sub || containsChars cs sub

/-- Substring test on strings, the semantics of Go's `strings.Contains`. -/
def strContains (s sub : String) : Bool :=
  containsChars s.data sub.data

/-- `tfawserr.ErrMessageContains err code msg` on a non-nil AWS error: the code must
match exactly and the message must contain `msg` as a substring. -/
def errMessageContains (e : AwsError) (code msg : String) : Bool :=
  e.code == code && strContains e.message msg

/-- `tfawserr.ErrCodeEquals err code` on a non-nil AWS error. -/
def errCodeEquals (e : AwsError) (code : String) : Bool :=
  e.code == code

/-- Go's `time.Minute` expressed in nanoseconds, the unit of `time.Duration`. -/
def timeMinute : Nat := 60 * 1000000000

/-- `arn.ARN.String()`: `arn:partition:service:region:accountID:resource`. -/
def arnString (partition service region accountID resource : String) : String :=
  "arn:" ++ partition ++ ":" ++ service ++ ":" ++ region ++ ":" ++ accountID ++ ":" ++ resource

/-- The provider-wide client handle fields consulted by the Read callbacks. -/
structure AwsClientMeta where
  partition : String
  region : String
  accountID : String
deriving DecidableEq

/-- A tag set: an association list from tag key to tag value (first binding wins). -/
abbrev Tags := List (String × String)

/-- Map lookup on a tag set: the value of the first binding of `key`, if any. -/
def tagLookup (tags : Tags) (key : String) : Option String :=
  match tags with
  | [] => none
  | (k, v) :: rest => if k == key then some v else tagLookup rest key

/-- Modelled from the spec: `DefaultConfig.MergeTags` of the excluded `keyvaluetags`
tag helper library is not under `src/`.  The spec describes the result as
"merged from a process-wide default-tags configuration and the resource's own
declared tags" with the invariant that the merge is "the union with
resource-level tags taking precedence on key collision".  The subsequent
service-specific conversions (`IgnoreAws`, `AccessanalyzerTags`, `RedshiftTags`,
`ec2TagSpecificationsFromKeyValueTags`) belong to the same excluded library and
are modelled as the identity on the merged map. -/
def mergeTags (defaultTags resourceTags : Tags) : Tags :=
  defaultTags.filter (fun p => (tagLookup resourceTags p.1).isNone) ++ resourceTags

/-- The outcome of one resource adapter Read: state cleared (`d.SetId("")` then
`return nil`), new state written back, or an error returned to the framework. -/
inductive ReadResult (σ : Type) where
  | cleared : ReadResult σ
  | ok (state : σ) : ReadResult σ
  | err (message : String) : ReadResult σ
deriving DecidableEq

/- ------------------------------------------------------------------ -/
/- WAF regional rule data source (dataSourceAwsWafRegionalRuleRead)   -/
/- ------------------------------------------------------------------ -/

/-- `waf.RuleSummary`: the fields consumed by the data source. -/
structure RuleSummary where
  ruleId : String
  name : String
deriving DecidableEq

/-- One `ListRules` response: a page of rule summaries and the next pagination marker. -/
structure ListRulesPage where
  rules : List RuleSummary
  nextMarker : Option String
deriving DecidableEq

/-- The rules of one page whose name equals the filter exactly. -/
def wafRuleNameMatches (name : String) (page : ListRulesPage) : List RuleSummary :=
  page.rules.filter (fun rule => rule.name == name)

/-- The pagination loop of `dataSourceAwsWafRegionalRuleRead`: each element of
`responses` is the outcome of one successive `ListRules` call; the loop stops
after the first page whose `NextMarker` is nil, accumulating exact name matches. -/
def wafCollectRules (name : String) : List (Except AwsError ListRulesPage) → Except String (List RuleSummary)
  | [] => Except.ok []
  | Except.error e :: _ => Except.error ( "error reading WAF Rule: " ++ e.message)
  | Except.ok page :: rest =>
    match page.nextMarker with
    | none => Except.ok (wafRuleNameMatches name page)
    | some _ =>
      match wafCollectRules name rest with
      | Except.error m => Except.error m
      | Except.ok more => Except.ok (wafRuleNameMatches name page ++ more)

/-- `dataSourceAwsWafRegionalRuleRead`: paginate, collect exact matches, then fail on
zero matches, fail on two or more matches, and otherwise set the resource ID to the
single match's `RuleId` (returned as the `Except.ok` value). -/
def dataSourceAwsWafRegionalRuleRead (name : String)
    (responses : List (Except AwsError ListRulesPage)) : Except String String :=
  match wafCollectRules name responses with
  | Except.error m => Except.error m
  | Except.ok rules =>
    match rules with
    | [] => Except.error ( "WAF Rule not found for name: " ++ name)
    | [rule] => Except.ok rule.ruleId
    | _ :: _ :: _ => Except.error ( "multiple WAF Rules found for name: " ++ name)

/-- The pages the pagination loop actually consumes: every page up to and
including the first one whose `NextMarker` is nil. -/
def consumedPages : List ListRulesPage → List ListRulesPage
  | [] => []
  | page :: rest =>
    match page.nextMarker with
    | none => [page]
    | some _ => page :: consumedPages rest

/-- Specification-side description of the collected rules: the exact name matches
of every consumed page, in order. -/
def wafMatches (name : String) : List ListRulesPage → List RuleSummary
  | [] => []
  | page :: rest =>
    match page.nextMarker with
    | none => wafRuleNameMatches name page
    | some _ => wafRuleNameMatches name page ++ wafMatches name rest

/- ------------------------------------------------------------------ -/
/- Access Analyzer analyzer resource                                  -/
/- ------------------------------------------------------------------ -/

/-- `accessanalyzer.ErrCodeResourceNotFoundException`. -/
def errCodeResourceNotFoundException : String := "ResourceNotFoundException"

/-- `accessanalyzer.ErrCodeValidationException`. -/
def errCodeValidationException : String := "ValidationException"

/-- `accessAnalyzerOrganizationCreationTimeout = 10 * time.Minute` (nanoseconds). -/
def accessAnalyzerOrganizationCreationTimeout : Nat := 10 * timeMinute

/-- The fields of `accessanalyzer.AnalyzerSummary` consumed by the Read callback
(pointer-typed SDK fields become `Option`). -/
structure Analyzer where
  name : Option String
  arn : Option String
  tags : Tags
  type : Option String
deriving DecidableEq

/-- `accessanalyzer.GetAnalyzerOutput`; a nil `output` or nil `output.Analyzer`
both become `analyzer = none`. -/
structure GetAnalyzerOutput where
  analyzer : Option Analyzer
deriving DecidableEq

/-- The schema state written back by the analyzer Read callback.  The tag
post-processing (`IgnoreAws`, `IgnoreConfig`, `RemoveDefaultConfig`) belongs to
the excluded tag helper library and is modelled as the identity, so `tagsAll`
holds the tags of the API response. -/
structure AnalyzerState where
  analyzerName : Option String
  arn : Option String
  tagsAll : Tags
  type : Option String
deriving DecidableEq

/-- `resourceAwsAccessAnalyzerAnalyzerRead`: a not-found error clears state only
when the resource is not newly created; any other error (and a not-found error on
a fresh resource) is returned annotated; an empty response is an error; otherwise
the response fields are written back. -/
def resourceAwsAccessAnalyzerAnalyzerRead (id : String) (isNewResource : Bool)
    (getAnalyzerResult : Except AwsError GetAnalyzerOutput) : ReadResult AnalyzerState :=
  match getAnalyzerResult with
  | Except.error e =>
    if !isNewResource && errCodeEquals e errCodeResourceNotFoundException then
      ReadResult.cleared
    else
      ReadResult.err ( "error getting Access Analyzer Analyzer (" ++ id ++ "): " ++ e.message)
  | Except.ok output =>
    match output.analyzer with
    | none => ReadResult.err ( "error getting Access Analyzer Analyzer (" ++ id ++ "): empty response")
    | some analyzer =>
      ReadResult.ok { analyzerName := analyzer.name, arn := analyzer.arn,
                      tagsAll := analyzer.tags, type := analyzer.type }

/-- The retry predicate of the analyzer Create:
`tfawserr.ErrMessageContains(err, ErrCodeValidationException, "You must create an organization")`. -/
def accessAnalyzerCreateRetryable (e : AwsError) : Bool :=
  errMessageContains e errCodeValidationException "You must create an organization"

/-- Outcome of `resource.Retry` as consumed by the analyzer Create:
success, an immediately-propagated non-retryable error, or a timeout reached
while a retryable error was still occurring (`tfresource.TimedOut` is true
exactly in the last case). -/
inductive RetryOutcome where
  | success : RetryOutcome
  | nonRetryable (e : AwsError) : RetryOutcome
  | timedOut (e : AwsError) : RetryOutcome
deriving DecidableEq

/-- Modelled from the spec: `resource.Retry` of the excluded plugin framework is
"a retry-until-timeout primitive" that retries "specific, named API error codes
... with backoff up to a fixed ceiling" while "all other errors propagate
immediately, non-retryable".  Real time is modelled by the number of attempts
that fit in the ceiling: `firstAttempt` is the outcome of the first call
(`none` = call succeeded) and `laterAttempts` the outcomes of the calls still
inside the window; exhausting the window on a retryable error is the timeout. -/
def retryLoop (isRetryableError : AwsError → Bool) :
    Option AwsError → List (Option AwsError) → RetryOutcome
  | none, _ => RetryOutcome.success
  | some e, rest =>
    if isRetryableError e then
      match rest with
      | [] => RetryOutcome.timedOut e
      | r :: rs => retryLoop isRetryableError r rs
    else
      RetryOutcome.nonRetryable e

/-- `accessanalyzer.CreateAnalyzerInput` as built by the Create callback. -/
structure CreateAnalyzerInput where
  analyzerName : String
  clientToken : String
  tags : Tags
  type : String
deriving DecidableEq

/-- The request construction of `resourceAwsAccessAnalyzerAnalyzerCreate`:
`Tags: defaultTagsConfig.MergeTags(New(d.Get("tags"))).IgnoreAws().AccessanalyzerTags()`. -/
def buildCreateAnalyzerInput (analyzerName clientToken type : String)
    (defaultTags resourceTags : Tags) : CreateAnalyzerInput :=
  { analyzerName := analyzerName, clientToken := clientToken,
    tags := mergeTags defaultTags resourceTags, type := type }

/-- `resourceAwsAccessAnalyzerAnalyzerCreate` after building the request: run the
retry loop; on `tfresource.TimedOut` make exactly one further `CreateAnalyzer`
call (`finalAttempt`); propagate the remaining error annotated; on success set
the ID to the analyzer name and delegate to Read (a fresh resource, so
`IsNewResource` is true there). -/
def resourceAwsAccessAnalyzerAnalyzerCreate (analyzerName : String)
    (firstAttempt : Option AwsError) (laterAttempts : List (Option AwsError))
    (finalAttempt : Option AwsError)
    (getAnalyzerResult : Except AwsError GetAnalyzerOutput) : ReadResult AnalyzerState :=
  let retryResult := retryLoop accessAnalyzerCreateRetryable firstAttempt laterAttempts
  let errAfterRetry : Option AwsError :=
    match retryResult with
    | RetryOutcome.success => none
    | RetryOutcome.nonRetryable e => some e
    | RetryOutcome.timedOut _ => finalAttempt
  match errAfterRetry with
  | some e => ReadResult.err ( "error creating Access Analyzer Analyzer (" ++ analyzerName ++ "): " ++ e.message)
  | none => resourceAwsAccessAnalyzerAnalyzerRead analyzerName true getAnalyzerResult

/-- `resourceAwsAccessAnalyzerAnalyzerDelete`: a not-found error is success;
any other error is returned annotated. -/
def resourceAwsAccessAnalyzerAnalyzerDelete (id : String)
    (deleteAnalyzerResult : Option AwsError) : Option String :=
  match deleteAnalyzerResult with
  | none => none
  | some e =>
    if errMessageContains e errCodeResourceNotFoundException "" then none
    else some ( "error deleting Access Analyzer Analyzer (" ++ id ++ "): " ++ e.message)

/- ------------------------------------------------------------------ -/
/- Redshift snapshot schedule resource                                -/
/- ------------------------------------------------------------------ -/

/-- `redshift.ErrCodeSnapshotScheduleNotFoundFault`. -/
def errCodeSnapshotScheduleNotFoundFault : String := "SnapshotScheduleNotFound"

/-- `redshift.ErrCodeClusterNotFoundFault`. -/
def errCodeClusterNotFoundFault : String := "ClusterNotFound"

/-- One entry of `SnapshotSchedule.AssociatedClusters`. -/
structure ClusterAssociation where
  clusterIdentifier : String
deriving DecidableEq

/-- The fields of `redshift.SnapshotSchedule` consumed by the callbacks. -/
structure SnapshotSchedule where
  scheduleIdentifier : Option String
  scheduleDescription : Option String
  scheduleDefinitions : List String
  tags : Tags
  associatedClusters : List ClusterAssociation
deriving DecidableEq

/-- `redshift.DescribeSnapshotSchedulesOutput` (a nil slice is the empty list). -/
structure DescribeSnapshotSchedulesOutput where
  snapshotSchedules : List SnapshotSchedule
deriving DecidableEq

/-- The identifier resolution of `resourceAwsRedshiftSnapshotScheduleCreate`:
the "identifier" attribute if set, else `resource.PrefixedUniqueId` of the
"identifier_prefix" attribute if set, else `resource.UniqueId()`; the two
framework generators are passed in as oracles. -/
def redshiftScheduleIdentifier (identifierAttr identifierPfxAttr : Option String)
    (pfxUniqueId : String → String) (uniqueId : String) : String :=
  match identifierAttr with
  | some v => v
  | none =>
    match identifierPfxAttr with
    | some v => pfxUniqueId v
    | none => uniqueId

/-- `redshift.CreateSnapshotScheduleInput` as built by the Create callback. -/
structure CreateSnapshotScheduleInput where
  scheduleIdentifier : String
  scheduleDefinitions : List String
  tags : Tags
  scheduleDescription : Option String
deriving DecidableEq

/-- The request construction of `resourceAwsRedshiftSnapshotScheduleCreate`:
`Tags: defaultTagsConfig.MergeTags(New(d.Get("tags"))).IgnoreAws().RedshiftTags()`. -/
def buildCreateSnapshotScheduleInput (identifier : String) (definitions : List String)
    (defaultTags resourceTags : Tags) (description : Option String) : CreateSnapshotScheduleInput :=
  { scheduleIdentifier := identifier, scheduleDefinitions := definitions,
    tags := mergeTags defaultTags resourceTags, scheduleDescription := description }

/-- The schema state written back by the schedule Read callback (tag
post-processing of the excluded helper library modelled as the identity). -/
structure RedshiftScheduleState where
  identifier : Option String
  description : Option String
  definitions : List String
  tagsAll : Tags
  arn : String
deriving DecidableEq

/-- `resourceAwsRedshiftSnapshotScheduleRead`: any Describe error is returned
annotated; a response whose schedule list does not have exactly one element
clears the state and returns success; otherwise the fields are written back.
The source never consults `d.IsNewResource()`; the parameter is accepted only
so that this fact can be stated. -/
def resourceAwsRedshiftSnapshotScheduleRead (id : String) (isNewResource : Bool)
    (describeResult : Except AwsError DescribeSnapshotSchedulesOutput)
    (meta : AwsClientMeta) : ReadResult RedshiftScheduleState :=
  match describeResult with
  | Except.error e =>
    ReadResult.err ( "Error describing Redshift Cluster Snapshot Schedule " ++ id ++ ": " ++ e.message)
  | Except.ok resp =>
    match resp.snapshotSchedules with
    | [snapshotSchedule] =>
      ReadResult.ok { identifier := snapshotSchedule.scheduleIdentifier,
                      description := snapshotSchedule.scheduleDescription,
                      definitions := snapshotSchedule.scheduleDefinitions,
                      tagsAll := snapshotSchedule.tags,
                      arn := arnString meta.partition "redshift" meta.region meta.accountID
                               ( "snapshotschedule:" ++ id) }
    | _ => ReadResult.cleared

/-- `resourceAwsRedshiftSnapshotScheduleCreate` after building the request: a
Create error is returned annotated (without the identifier); on success the ID
is set to the returned `ScheduleIdentifier` and Read is delegated to.  The
`identifier` parameter is the requested identifier of the built input. -/
def resourceAwsRedshiftSnapshotScheduleCreate (identifier : String)
    (createResult : Except AwsError String)
    (describeResult : Except AwsError DescribeSnapshotSchedulesOutput)
    (meta : AwsClientMeta) : ReadResult RedshiftScheduleState :=
  match createResult with
  | Except.error e => ReadResult.err ( "Error creating Redshift Snapshot Schedule: " ++ e.message)
  | Except.ok returnedIdentifier =>
    resourceAwsRedshiftSnapshotScheduleRead returnedIdentifier true describeResult meta

/-- Whether a disassociation outcome is skipped by the cleanup loop:
success, `ClusterNotFound`, or `SnapshotScheduleNotFound` (the latter two are
logged and skipped with `continue`). -/
def redshiftDisassocSkipped (outcome : Option AwsError) : Bool :=
  match outcome with
  | none => true
  | some e =>
    errMessageContains e errCodeClusterNotFoundFault "" ||
      errMessageContains e errCodeSnapshotScheduleNotFoundFault ""

/-- The first loop of `resourceAwsRedshiftSnapshotScheduleDeleteAllAssociatedClusters`:
one `ModifyClusterSnapshotSchedule(DisassociateSchedule: true)` call per associated
cluster; not-found errors are skipped; any other error aborts with the underlying
error surfaced. -/
def redshiftDisassociateClustersLoop (scheduleIdentifier : String)
    (modifyClusterSnapshotScheduleResult : String → Option AwsError) :
    List ClusterAssociation → Option String
  | [] => none
  | associatedCluster :: rest =>
    match modifyClusterSnapshotScheduleResult associatedCluster.clusterIdentifier with
    | none =>
      redshiftDisassociateClustersLoop scheduleIdentifier modifyClusterSnapshotScheduleResult rest
    | some e =>
      if errMessageContains e errCodeClusterNotFoundFault "" then
        redshiftDisassociateClustersLoop scheduleIdentifier modifyClusterSnapshotScheduleResult rest
      else if errMessageContains e errCodeSnapshotScheduleNotFoundFault "" then
        redshiftDisassociateClustersLoop scheduleIdentifier modifyClusterSnapshotScheduleResult rest
      else
        some ( "Error disassociate Redshift Cluster (" ++ associatedCluster.clusterIdentifier ++
               ") and Snapshot Schedule (" ++ scheduleIdentifier ++ ") Association: " ++ e.message)

/-- Modelled from the spec: `waitForRedshiftSnapshotScheduleAssociationDestroy` is
code of this repository not present under `src/`; the spec describes it as "poll
until each detachment is externally confirmed (bounded wait)".  Only its
observable outcome is modelled: `waitOutcome timeout clusterIdentifier
scheduleIdentifier` is `none` when the disassociation is confirmed within
`timeout` nanoseconds and `some errorMessage` otherwise. -/
def waitForRedshiftSnapshotScheduleAssociationDestroy
    (waitOutcome : Nat → String → String → Option String) (timeout : Nat)
    (clusterIdentifier scheduleIdentifier : String) : Option String :=
  waitOutcome timeout clusterIdentifier scheduleIdentifier

/-- The second loop of the cleanup helper: wait (bounded by 75 minutes) for each
disassociation to be confirmed; the first wait failure aborts. -/
def redshiftWaitAssociationsLoop (scheduleIdentifier : String)
    (waitOutcome : Nat → String → String → Option String) :
    List ClusterAssociation → Option String
  | [] => none
  | associatedCluster :: rest =>
    match waitForRedshiftSnapshotScheduleAssociationDestroy waitOutcome (75 * timeMinute)
        associatedCluster.clusterIdentifier scheduleIdentifier with
    | some msg => some msg
    | none => redshiftWaitAssociationsLoop scheduleIdentifier waitOutcome rest

/-- `resourceAwsRedshiftSnapshotScheduleDeleteAllAssociatedClusters`: describe the
schedule (not-found is success, other errors annotated, a list without exactly one
element is success with all cleanup skipped), then disassociate every associated
cluster, then wait for every disassociation. -/
def resourceAwsRedshiftSnapshotScheduleDeleteAllAssociatedClusters (scheduleIdentifier : String)
    (describeResult : Except AwsError DescribeSnapshotSchedulesOutput)
    (modifyClusterSnapshotScheduleResult : String → Option AwsError)
    (waitOutcome : Nat → String → String → Option String) : Option String :=
  match describeResult with
  | Except.error e =>
    if errMessageContains e errCodeSnapshotScheduleNotFoundFault "" then none
    else some ( "Error describing Redshift Cluster Snapshot Schedule " ++ scheduleIdentifier ++ ": " ++ e.message)
  | Except.ok resp =>
    match resp.snapshotSchedules with
    | [snapshotSchedule] =>
      match redshiftDisassociateClustersLoop scheduleIdentifier modifyClusterSnapshotScheduleResult
          snapshotSchedule.associatedClusters with
      | some msg => some msg
      | none =>
        redshiftWaitAssociationsLoop scheduleIdentifier waitOutcome snapshotSchedule.associatedClusters
    | _ => none

/-- The final `DeleteSnapshotSchedule` call of the Delete callback: not-found is
success; any other error is returned annotated. -/
def redshiftDeleteScheduleCall (scheduleIdentifier : String)
    (deleteResult : Option AwsError) : Option String :=
  match deleteResult with
  | none => none
  | some e =>
    if errMessageContains e errCodeSnapshotScheduleNotFoundFault "" then none
    else some ( "Error deleting Redshift Snapshot Schedule " ++ scheduleIdentifier ++ ": " ++ e.message)

/-- `resourceAwsRedshiftSnapshotScheduleDelete`: when `force_destroy` is set, run
the cleanup helper first and abort on its error; then delete the schedule. -/
def resourceAwsRedshiftSnapshotScheduleDelete (scheduleIdentifier : String) (forceDestroy : Bool)
    (describeResult : Except AwsError DescribeSnapshotSchedulesOutput)
    (modifyClusterSnapshotScheduleResult : String → Option AwsError)
    (waitOutcome : Nat → String → String → Option String)
    (deleteResult : Option AwsError) : Option String :=
  let cleanupResult : Option String :=
    if forceDestroy then
      resourceAwsRedshiftSnapshotScheduleDeleteAllAssociatedClusters scheduleIdentifier
        describeResult modifyClusterSnapshotScheduleResult waitOutcome
    else none
  match cleanupResult with
  | some msg => some msg
  | none => redshiftDeleteScheduleCall scheduleIdentifier deleteResult

/- ------------------------------------------------------------------ -/
/- EC2 traffic mirror filter resource                                 -/
/- ------------------------------------------------------------------ -/

/-- The not-found error code handled by the traffic mirror filter Read:
`"InvalidTrafficMirrorFilterId.NotFound"`. -/
def ec2TrafficMirrorFilterNotFound : String := "InvalidTrafficMirrorFilterId.NotFound"

/-- The fields of `ec2.TrafficMirrorFilter` consumed by the Read callback. -/
structure TrafficMirrorFilter where
  trafficMirrorFilterId : Option String
  description : Option String
  networkServices : List String
  tags : Tags
deriving DecidableEq

/-- `ec2.DescribeTrafficMirrorFiltersOutput` (a nil slice is the empty list). -/
structure DescribeTrafficMirrorFiltersOutput where
  trafficMirrorFilters : List TrafficMirrorFilter
deriving DecidableEq

/-- The schema state written back by the filter Read callback (tag
post-processing of the excluded helper library modelled as the identity). -/
structure Ec2FilterState where
  description : Option String
  networkServices : List String
  tagsAll : Tags
  arn : String
deriving DecidableEq

/-- `ec2.CreateTrafficMirrorFilterInput` as built by the Create callback:
`TagSpecifications` is only set when the merged tag set is non-empty. -/
structure CreateTrafficMirrorFilterInput where
  description : Option String
  tagSpecifications : Option Tags
deriving DecidableEq

/-- The request construction of `resourceAwsEc2TrafficMirrorFilterCreate`. -/
def buildCreateTrafficMirrorFilterInput (description : Option String)
    (defaultTags resourceTags : Tags) : CreateTrafficMirrorFilterInput :=
  let tags := mergeTags defaultTags resourceTags
  { description := description,
    tagSpecifications := if tags.length > 0 then some tags else none }

/-- `resourceAwsEc2TrafficMirrorFilterRead`: the not-found error code clears the
state and returns success with no regard to `d.IsNewResource()` (the source never
consults it; the parameter is accepted only so that this fact can be stated);
other errors are returned annotated; an empty filter list also clears the state;
otherwise the first filter's fields are written back. -/
def resourceAwsEc2TrafficMirrorFilterRead (id : String) (isNewResource : Bool)
    (describeResult : Except AwsError DescribeTrafficMirrorFiltersOutput)
    (meta : AwsClientMeta) : ReadResult Ec2FilterState :=
  match describeResult with
  | Except.error e =>
    if errMessageContains e ec2TrafficMirrorFilterNotFound "" then
      ReadResult.cleared
    else
      ReadResult.err ( "Error describing traffic mirror filter " ++ id ++ ": " ++ e.message)
  | Except.ok out =>
    match out.trafficMirrorFilters with
    | [] => ReadResult.cleared
    | trafficMirrorFilter :: _ =>
      ReadResult.ok { description := trafficMirrorFilter.description,
                      networkServices := trafficMirrorFilter.networkServices,
                      tagsAll := trafficMirrorFilter.tags,
                      arn := arnString meta.partition "ec2" meta.region meta.accountID
                               ( "traffic-mirror-filter/" ++ id) }

/-- `resourceAwsEc2TrafficMirrorFilterCreate` after building the request: a
Create error is returned annotated (with neither identifier nor resource ID);
on success the ID is set to the returned `TrafficMirrorFilterId`; when the
"network_services" set is present a `ModifyTrafficMirrorFilterNetworkServices`
call adds all of them; then Read is delegated to. -/
def resourceAwsEc2TrafficMirrorFilterCreate (description : Option String)
    (networkServices : Option (Finset String))
    (createResult : Except AwsError String)
    (modifyNetworkServicesResult : Option AwsError)
    (describeResult : Except AwsError DescribeTrafficMirrorFiltersOutput)
    (meta : AwsClientMeta) : ReadResult Ec2FilterState :=
  match createResult with
  | Except.error e => ReadResult.err ( "Error while creating traffic filter " ++ e.message)
  | Except.ok id =>
    match networkServices with
    | some _ =>
      match modifyNetworkServicesResult with
      | some e =>
        ReadResult.err ( "error modifying EC2 Traffic Mirror Filter (" ++ id ++ ") network services: " ++ e.message)
      | none => resourceAwsEc2TrafficMirrorFilterRead id true describeResult meta
    | none => resourceAwsEc2TrafficMirrorFilterRead id true describeResult meta

/-- `ec2.ModifyTrafficMirrorFilterNetworkServicesInput` as built by the Update
callback: each side is only set when the corresponding set difference is
non-empty. -/
structure ModifyTrafficMirrorFilterNetworkServicesInput where
  trafficMirrorFilterId : String
  addNetworkServices : Option (Finset String)
  removeNetworkServices : Option (Finset String)
deriving DecidableEq

/-- The request construction of the "network_services" branch of
`resourceAwsEc2TrafficMirrorFilterUpdate`: add `new \ old`, remove `old \ new`,
each side omitted when empty. -/
def buildModifyNetworkServicesInput (id : String)
    (o n : Finset String) : ModifyTrafficMirrorFilterNetworkServicesInput :=
  { trafficMirrorFilterId := id,
    addNetworkServices := if (n \ o).card > 0 then some (n \ o) else none,
    removeNetworkServices := if (o \ n).card > 0 then some (o \ n) else none }

/-- One SDK call issued by the Update callback, recorded for the call trace. -/
inductive Ec2ApiCall where
  | modifyNetworkServices (input : ModifyTrafficMirrorFilterNetworkServicesInput) : Ec2ApiCall
  | updateTags (resourceId : String) (oldTags newTags : Finset (String × String)) : Ec2ApiCall
deriving DecidableEq

/-- Whether a recorded call is a `ModifyTrafficMirrorFilterNetworkServices` call. -/
def isModifyNetworkServicesCall : Ec2ApiCall → Bool
  | Ec2ApiCall.modifyNetworkServices _ => true
  | _ => false

/-- Whether a recorded call is an `Ec2UpdateTags` call. -/
def isUpdateTagsCall : Ec2ApiCall → Bool
  | Ec2ApiCall.updateTags _ _ _ => true
  | _ => false

/-- The "tags_all" branch of the Update callback followed by the delegation to
Read: `d.HasChange("tags_all")` is modelled as inequality of the old and new tag
sets; `Ec2UpdateTags` belongs to the excluded tag helper library, so only its
outcome is passed in. -/
def ec2UpdateTagsPhase (id : String) (oldTagsAll newTagsAll : Finset (String × String))
    (updateTagsResult : Option AwsError) (isNewResource : Bool)
    (describeResult : Except AwsError DescribeTrafficMirrorFiltersOutput)
    (meta : AwsClientMeta) : List Ec2ApiCall × ReadResult Ec2FilterState :=
  if oldTagsAll = newTagsAll then
    ([], resourceAwsEc2TrafficMirrorFilterRead id isNewResource describeResult meta)
  else
    match updateTagsResult with
    | some e =>
      ([Ec2ApiCall.updateTags id oldTagsAll newTagsAll],
       ReadResult.err ( "error updating EC2 Traffic Mirror Filter (" ++ id ++ ") tags: " ++ e.message))
    | none =>
      ([Ec2ApiCall.updateTags id oldTagsAll newTagsAll],
       resourceAwsEc2TrafficMirrorFilterRead id isNewResource describeResult meta)

/-- `resourceAwsEc2TrafficMirrorFilterUpdate`: when the "network_services" set
changed (`d.HasChange`, modelled as set inequality), one modify call with the two
set differences is issued and its error aborts; then the "tags_all" branch runs;
finally Read is delegated to.  The first component of the result is the trace of
issued SDK calls in order. -/
def resourceAwsEc2TrafficMirrorFilterUpdate (id : String)
    (oldNetworkServices newNetworkServices : Finset String)
    (oldTagsAll newTagsAll : Finset (String × String))
    (modifyNetworkServicesResult : Option AwsError)
    (updateTagsResult : Option AwsError) (isNewResource : Bool)
    (describeResult : Except AwsError DescribeTrafficMirrorFiltersOutput)
    (meta : AwsClientMeta) : List Ec2ApiCall × ReadResult Ec2FilterState :=
  if oldNetworkServices = newNetworkServices then
    ec2UpdateTagsPhase id oldTagsAll newTagsAll updateTagsResult isNewResource describeResult meta
  else
    let input := buildModifyNetworkServicesInput id oldNetworkServices newNetworkServices
    match modifyNetworkServicesResult with
    | some e =>
      ([Ec2ApiCall.modifyNetworkServices input],
       ReadResult.err ( "error modifying EC2 Traffic Mirror Filter (" ++ id ++ ") network services: " ++ e.message))
    | none =>
      let rest := ec2UpdateTagsPhase id oldTagsAll newTagsAll updateTagsResult isNewResource describeResult meta
      (Ec2ApiCall.modifyNetworkServices input :: rest.1, rest.2)

/-- `resourceAwsEc2TrafficMirrorFilterDelete`: every error is returned annotated;
there is no not-found handling. -/
def resourceAwsEc2TrafficMirrorFilterDelete (id : String)
    (deleteResult : Option AwsError) : Option String :=
  match deleteResult with
  | none => none
  | some e => some ( "Error deleting traffic mirror filter " ++ id ++ ": " ++ e.message)

/- ------------------------------------------------------------------ -/
/- Helper lemmas about the substring test                             -/
/- ------------------------------------------------------------------ -/

theorem containsChars_nil (l : List Char) : containsChars l [] = true := by
  cases l <;> simp [containsChars, startsWithChars]

theorem strContains_empty (s : String) : strContains s "" = true := by
  have h : ( "" : String).data = [] := rfl
  unfold strContains
  rw [h]
  exact containsChars_nil s.data

theorem startsWithChars_nil (l : List Char) : startsWithChars l [] = true := by
  cases l <;> rfl

theorem startsWithChars_refl (l : List Char) : startsWithChars l l = true := by
  induction l with
  | nil => rfl
  | cons c cs ih => simp [startsWithChars, ih]

theorem startsWithChars_append (sub post : List Char) :
    startsWithChars (sub ++ post) sub = true := by
  induction sub with
  | nil => cases post <;> rfl
  | cons c cs ih => simp [startsWithChars, ih]

theorem startsWithChars_append_left (l b sub : List Char) (h : startsWithChars l sub = true) :
    startsWithChars (l ++ b) sub = true := by
  induction sub generalizing l with
  | nil => exact startsWithChars_nil _
  | cons d ds ih =>
    cases l with
    | nil => simp [startsWithChars] at h
    | cons c cs =>
      simp only [List.cons_append, startsWithChars, Bool.and_eq_true] at h ⊢
      exact ⟨h.1, ih cs h.2⟩

theorem containsChars_of_startsWith (l sub : List Char) (h : startsWithChars l sub = true) :
    containsChars l sub = true := by
  cases l with
  | nil => exact h
  | cons c cs => simp [containsChars, h]

theorem containsChars_append_right (a b sub : List Char) (h : containsChars b sub = true) :
    containsChars (a ++ b) sub = true := by
  induction a with
  | nil => simpa using h
  | cons c cs ih => simp [containsChars, ih]

theorem containsChars_append_left (a b sub : List Char) (h : containsChars a sub = true) :
    containsChars (a ++ b) sub = true := by
  induction a with
  | nil =>
    cases sub with
    | nil => exact containsChars_nil b
    | cons d ds => simp [containsChars, startsWithChars] at h
  | cons c cs ih =>
    simp only [containsChars, Bool.or_eq_true] at h
    simp only [List.cons_append, containsChars, Bool.or_eq_true]
    rcases h with h | h
    · exact Or.inl (startsWithChars_append_left _ _ _ h)
    · exact Or.inr (ih h)

/-- A string contains any suffix produced by its own concatenation. -/
theorem strContains_suffix (pre suf : String) : strContains (pre ++ suf) suf = true := by
  unfold strContains
  rw [String.data_append]
  exact containsChars_append_right _ _ _
    (containsChars_of_startsWith _ _ (startsWithChars_refl _))

/-- A string contains its own middle concatenation component. -/
theorem strContains_around (a b c : String) : strContains (a ++ b ++ c) b = true := by
  unfold strContains
  rw [String.data_append, String.data_append, List.append_assoc]
  exact containsChars_append_right _ _ _
    (containsChars_of_startsWith _ _ (startsWithChars_append _ _))

/-- A string contains its second concatenation component out of four. -/
theorem strContains_around4 (a b c d : String) :
    strContains (a ++ b ++ c ++ d) b = true := by
  unfold strContains
  rw [String.data_append, String.data_append, String.data_append,
      List.append_assoc, List.append_assoc]
  exact containsChars_append_right _ _ _
    (containsChars_of_startsWith _ _ (startsWithChars_append _ _))

/-- Containment survives appending on the right. -/
theorem strContains_extend_right (a b sub : String) (h : strContains a sub = true) :
    strContains (a ++ b) sub = true := by
  unfold strContains at h ⊢
  rw [String.data_append]
  exact containsChars_append_left _ _ _ h

theorem wafCollectRules_ok (name : String) (pages : List ListRulesPage) :
    wafCollectRules name (pages.map Except.ok) = Except.ok (wafMatches name pages) := by
  induction pages with
  | nil => rfl
  | cons page rest ih =>
    simp only [List.map, wafCollectRules, wafMatches]
    cases page.nextMarker with
    | none => rfl
    | some marker => rw [ih]

theorem wafMatches_mem (name : String) (pages : List ListRulesPage) (r : RuleSummary) :
    r ∈ wafMatches name pages ↔ ((∃ p ∈ consumedPages pages, r ∈ p.rules) ∧ r.name = name) := by
  induction pages with
  | nil => simp [wafMatches, consumedPages]
  | cons page rest ih =>
    simp only [wafMatches, consumedPages]
    cases page.nextMarker with
    | none =>
      simp [wafRuleNameMatches, List.mem_filter]
    | some marker =>
      simp only [List.mem_append, ih, wafRuleNameMatches, List.mem_filter, List.mem_cons]
      constructor
      · rintro (⟨hr, hb⟩ | ⟨⟨p, hp, hrp⟩, hname⟩)
        · exact ⟨⟨page, Or.inl rfl, hr⟩, by simpa using hb⟩
        · exact ⟨⟨p, Or.inr hp, hrp⟩, hname⟩
      · rintro ⟨⟨p, hp | hp, hrp⟩, hname⟩
        · exact Or.inl ⟨hp ▸ hrp, by simpa using hname⟩
        · exact Or.inr ⟨⟨p, hp, hrp⟩, hname⟩

/-- C1: the WAF regional rule data source paginates the listing API until the
response's `NextMarker` is nil, collecting exactly the rules of the consumed pages
whose name equals the filter; it fails with the "not found" message on zero
matches, fails with the "multiple ... found" message on two or more matches
(never picking one), and otherwise sets the resource ID to the single matching
rule's `RuleId`. -/
theorem waf_regional_rule_data_source_spec (name : String) (pages : List ListRulesPage) :
    (dataSourceAwsWafRegionalRuleRead name (pages.map Except.ok) =
      match wafMatches name pages with
      | [] => Except.error ( "WAF Rule not found for name: " ++ name)
      | [rule] => Except.ok rule.ruleId
      | _ :: _ :: _ => Except.error ( "multiple WAF Rules found for name: " ++ name))
    ∧ (∀ r : RuleSummary, r ∈ wafMatches name pages ↔
        ((∃ p ∈ consumedPages pages, r ∈ p.rules) ∧ r.name = name)) := by
  refine ⟨?_, fun r => wafMatches_mem name pages r⟩
  unfold dataSourceAwsWafRegionalRuleRead
  rw [wafCollectRules_ok]

/- ------------------------------------------------------------------ -/
/- C2: Delete treats not-found as success                             -/
/- ------------------------------------------------------------------ -/

/-- C2 counterexample: the EC2 traffic mirror filter Delete does not treat the
service's not-found error code as success — it returns an annotated error. -/
theorem ec2_delete_not_found_counterexample :
    resourceAwsEc2TrafficMirrorFilterDelete "tmf-123"
        (some { code := "InvalidTrafficMirrorFilterId.NotFound", message := "filter gone" }) =
      some "Error deleting traffic mirror filter tmf-123: filter gone"
    ∧ resourceAwsEc2TrafficMirrorFilterDelete "tmf-123"
        (some { code := "InvalidTrafficMirrorFilterId.NotFound", message := "filter gone" }) ≠
      none := by
  exact ⟨rfl, by decide⟩

/-- C2 (amended): the Access Analyzer analyzer and Redshift snapshot schedule
Deletes treat the service's not-found error code as success (nil error); the EC2
traffic mirror filter Delete has no not-found handling and propagates every
error, including not-found, as an annotated error. -/
theorem delete_not_found_spec (id : String) (e : AwsError) :
    (e.code = errCodeResourceNotFoundException →
      resourceAwsAccessAnalyzerAnalyzerDelete id (some e) = none)
    ∧ (e.code = errCodeSnapshotScheduleNotFoundFault →
      ∀ (describeResult : Except AwsError DescribeSnapshotSchedulesOutput)
        (modifyResult : String → Option AwsError)
        (waitOutcome : Nat → String → String → Option String),
        resourceAwsRedshiftSnapshotScheduleDelete id false describeResult modifyResult
          waitOutcome (some e) = none)
    ∧ (resourceAwsEc2TrafficMirrorFilterDelete id (some e) =
        some ( "Error deleting traffic mirror filter " ++ id ++ ": " ++ e.message)) := by
  refine ⟨?_, ?_, rfl⟩
  · intro h
    simp [resourceAwsAccessAnalyzerAnalyzerDelete, errMessageContains, h, strContains_empty]
  · intro h describeResult modifyResult waitOutcome
    simp [resourceAwsRedshiftSnapshotScheduleDelete, redshiftDeleteScheduleCall,
          errMessageContains, h, strContains_empty]

/-- Witness for C2 (amended) at concrete inputs. -/
theorem delete_not_found_spec_witness :
    resourceAwsAccessAnalyzerAnalyzerDelete "analyzer-1"
      (some { code := "ResourceNotFoundException", message := "gone" }) = none
    ∧ resourceAwsRedshiftSnapshotScheduleDelete "sched-1" false
        (Except.ok { snapshotSchedules := [] }) (fun _ => none) (fun _ _ _ => none)
        (some { code := "SnapshotScheduleNotFound", message := "gone" }) = none :=
  ⟨(delete_not_found_spec "analyzer-1"
      { code := "ResourceNotFoundException", message := "gone" }).1 rfl,
   (delete_not_found_spec "sched-1"
      { code := "SnapshotScheduleNotFound", message := "gone" }).2.1 rfl
     (Except.ok { snapshotSchedules := [] }) (fun _ => none) (fun _ _ _ => none)⟩

/- ------------------------------------------------------------------ -/
/- C3: Read treats not-found as clear-state except on fresh resources -/
/- ------------------------------------------------------------------ -/

/-- C3 counterexample: a freshly created EC2 traffic mirror filter whose first
post-create Read sees the not-found error has its state cleared with success —
not the hard error the claim requires. -/
theorem ec2_read_new_not_found_counterexample :
    resourceAwsEc2TrafficMirrorFilterRead "tmf-123" true
      (Except.error { code := "InvalidTrafficMirrorFilterId.NotFound", message := "gone" })
      { partition := "aws", region := "us-east-1", accountID := "123456789012" } =
      ReadResult.cleared := by
  rfl

/-- C3 (amended): the Access Analyzer Read clears state and succeeds on not-found
only when the resource is not newly created, and returns a hard annotated error
for a freshly created resource; the EC2 traffic mirror filter Read instead clears
state and succeeds on its not-found code regardless of newness; any other error
is propagated annotated by both. -/
theorem read_not_found_spec (id : String) (isNew : Bool) (e : AwsError) (meta : AwsClientMeta) :
    (e.code = errCodeResourceNotFoundException →
      resourceAwsAccessAnalyzerAnalyzerRead id isNew (Except.error e) =
        (if isNew then
          ReadResult.err ( "error getting Access Analyzer Analyzer (" ++ id ++ "): " ++ e.message)
        else ReadResult.cleared))
    ∧ (e.code ≠ errCodeResourceNotFoundException →
      resourceAwsAccessAnalyzerAnalyzerRead id isNew (Except.error e) =
        ReadResult.err ( "error getting Access Analyzer Analyzer (" ++ id ++ "): " ++ e.message))
    ∧ (e.code = ec2TrafficMirrorFilterNotFound →
      resourceAwsEc2TrafficMirrorFilterRead id isNew (Except.error e) meta = ReadResult.cleared)
    ∧ (e.code ≠ ec2TrafficMirrorFilterNotFound →
      resourceAwsEc2TrafficMirrorFilterRead id isNew (Except.error e) meta =
        ReadResult.err ( "Error describing traffic mirror filter " ++ id ++ ": " ++ e.message)) := by
  refine ⟨?_, ?_, ?_, ?_⟩ <;> intro h
  · cases isNew <;>
      simp [resourceAwsAccessAnalyzerAnalyzerRead, errCodeEquals, beq_iff_eq, h]
  · simp [resourceAwsAccessAnalyzerAnalyzerRead, errCodeEquals, beq_iff_eq, h]
  · simp [resourceAwsEc2TrafficMirrorFilterRead, errMessageContains, beq_iff_eq, h,
          strContains_empty]
  · simp [resourceAwsEc2TrafficMirrorFilterRead, errMessageContains, beq_iff_eq, h]

/-- Witness for C3 (amended) at concrete inputs. -/
theorem read_not_found_spec_witness :
    resourceAwsAccessAnalyzerAnalyzerRead "an-1" false
      (Except.error { code := "ResourceNotFoundException", message := "gone" }) =
        ReadResult.cleared
    ∧ resourceAwsAccessAnalyzerAnalyzerRead "an-1" true
      (Except.error { code := "ResourceNotFoundException", message := "gone" }) =
        ReadResult.err ( "error getting Access Analyzer Analyzer (" ++ "an-1" ++ "): " ++ "gone")
    ∧ resourceAwsEc2TrafficMirrorFilterRead "tmf-1" false
      (Except.error { code := "InvalidTrafficMirrorFilterId.NotFound", message := "gone" })
      { partition := "aws", region := "us-east-1", accountID := "123456789012" } =
        ReadResult.cleared :=
  ⟨(read_not_found_spec "an-1" false { code := "ResourceNotFoundException", message := "gone" }
      { partition := "aws", region := "us-east-1", accountID := "123456789012" }).1 rfl,
   (read_not_found_spec "an-1" true { code := "ResourceNotFoundException", message := "gone" }
      { partition := "aws", region := "us-east-1", accountID := "123456789012" }).1 rfl,
   (read_not_found_spec "tmf-1" false
      { code := "InvalidTrafficMirrorFilterId.NotFound", message := "gone" }
      { partition := "aws", region := "us-east-1", accountID := "123456789012" }).2.2.1 rfl⟩

/- ------------------------------------------------------------------ -/
/- C4 and C10: the analyzer Create retry loop                         -/
/- ------------------------------------------------------------------ -/

/-- A non-retryable error stops the retry loop at once. -/
theorem retryLoop_nonretryable (f : AwsError → Bool) (e : AwsError)
    (rest : List (Option AwsError)) (h : f e = false) :
    retryLoop f (some e) rest = RetryOutcome.nonRetryable e := by
  unfold retryLoop
  rw [h]
  simp

/-- A retryable error with no window left times the loop out. -/
theorem retryLoop_retryable_last (f : AwsError → Bool) (e : AwsError) (h : f e = true) :
    retryLoop f (some e) [] = RetryOutcome.timedOut e := by
  unfold retryLoop
  rw [h]
  simp

/-- A retryable error with window remaining is retried: the loop moves on to the
next attempt. -/
theorem retryLoop_retryable_cons (f : AwsError → Bool) (e : AwsError)
    (r : Option AwsError) (rs : List (Option AwsError)) (h : f e = true) :
    retryLoop f (some e) (r :: rs) = retryLoop f r rs := by
  rw [retryLoop]
  rw [h]
  simp

/-- A non-retryable first attempt makes the whole Create fail with that error
annotated, regardless of the remaining attempts. -/
theorem analyzerCreate_nonretryable (name : String) (e : AwsError)
    (rest : List (Option AwsError)) (finalAttempt : Option AwsError)
    (readResult : Except AwsError GetAnalyzerOutput)
    (h : accessAnalyzerCreateRetryable e = false) :
    resourceAwsAccessAnalyzerAnalyzerCreate name (some e) rest finalAttempt readResult =
      ReadResult.err ( "error creating Access Analyzer Analyzer (" ++ name ++ "): " ++ e.message) := by
  simp only [resourceAwsAccessAnalyzerAnalyzerCreate]
  rw [retryLoop_nonretryable _ _ _ h]

/-- C4: in the analyzer Create, exactly the ValidationException whose message
contains "You must create an organization" is retryable; a retryable error is
retried while the window lasts and becomes the timeout when the window is
exhausted; every other error aborts the retry loop immediately and is propagated
annotated as the Create error; the ceiling constant is 10 minutes. -/
theorem access_analyzer_create_retry_spec :
    (∀ e : AwsError, accessAnalyzerCreateRetryable e = true ↔
      (e.code = errCodeValidationException ∧
        strContains e.message "You must create an organization" = true))
    ∧ (∀ (e : AwsError) (rest : List (Option AwsError)),
        accessAnalyzerCreateRetryable e = true →
        retryLoop accessAnalyzerCreateRetryable (some e) rest =
          match rest with
          | [] => RetryOutcome.timedOut e
          | r :: rs => retryLoop accessAnalyzerCreateRetryable r rs)
    ∧ (∀ (e : AwsError) (rest : List (Option AwsError)),
        accessAnalyzerCreateRetryable e = false →
        retryLoop accessAnalyzerCreateRetryable (some e) rest = RetryOutcome.nonRetryable e)
    ∧ (∀ (name : String) (e : AwsError) (rest : List (Option AwsError))
        (finalAttempt : Option AwsError) (readResult : Except AwsError GetAnalyzerOutput),
        accessAnalyzerCreateRetryable e = false →
        resourceAwsAccessAnalyzerAnalyzerCreate name (some e) rest finalAttempt readResult =
          ReadResult.err ( "error creating Access Analyzer Analyzer (" ++ name ++ "): " ++ e.message))
    ∧ accessAnalyzerOrganizationCreationTimeout = 10 * timeMinute := by
  refine ⟨?_, ?_, ?_, ?_, rfl⟩
  · intro e
    simp [accessAnalyzerCreateRetryable, errMessageContains, Bool.and_eq_true, beq_iff_eq]
  · intro e rest h
    cases rest with
    | nil => exact retryLoop_retryable_last _ _ h
    | cons r rs => exact retryLoop_retryable_cons _ _ _ _ h
  · intro e rest h
    exact retryLoop_nonretryable _ _ _ h
  · intro name e rest finalAttempt readResult h
    exact analyzerCreate_nonretryable name e rest finalAttempt readResult h

/-- Witness for C4 at concrete inputs: an access-denied error is not retryable,
aborts the loop at once and is the Create error; the organization error times
the loop out. -/
theorem access_analyzer_create_retry_spec_witness :
    retryLoop accessAnalyzerCreateRetryable
        (some { code := "AccessDeniedException", message := "denied" }) [none] =
      RetryOutcome.nonRetryable { code := "AccessDeniedException", message := "denied" }
    ∧ resourceAwsAccessAnalyzerAnalyzerCreate "an-1"
        (some { code := "AccessDeniedException", message := "denied" }) [] none
        (Except.ok { analyzer := none }) =
      ReadResult.err ( "error creating Access Analyzer Analyzer (" ++ "an-1" ++ "): " ++ "denied")
    ∧ retryLoop accessAnalyzerCreateRetryable
        (some { code := "ValidationException",
                message := "You must create an organization first" }) [] =
      RetryOutcome.timedOut
        { code := "ValidationException", message := "You must create an organization first" } :=
  ⟨access_analyzer_create_retry_spec.2.2.1
      { code := "AccessDeniedException", message := "denied" } [none] (by decide),
   access_analyzer_create_retry_spec.2.2.2.1 "an-1"
      { code := "AccessDeniedException", message := "denied" } [] none
      (Except.ok { analyzer := none }) (by decide),
   access_analyzer_create_retry_spec.2.1
      { code := "ValidationException", message := "You must create an organization first" } []
      (by decide)⟩

/-- Every attempt in the window failing retryably makes the retry loop time out
with some retryable error. -/
theorem retryLoop_all_retryable (f : AwsError → Bool) (first : Option AwsError)
    (rest : List (Option AwsError))
    (h : ∀ x ∈ first :: rest, ∃ e, x = some e ∧ f e = true) :
    ∃ e, retryLoop f first rest = RetryOutcome.timedOut e ∧ f e = true := by
  induction rest generalizing first with
  | nil =>
    obtain ⟨e, hx, hf⟩ := h first (List.mem_cons_self _ _)
    subst hx
    exact ⟨e, retryLoop_retryable_last _ _ hf, hf⟩
  | cons r rs ih =>
    obtain ⟨e, hx, hf⟩ := h first (List.mem_cons_self _ _)
    subst hx
    have step := ih r (fun x hx => h x (List.mem_cons_of_mem _ hx))
    rw [retryLoop_retryable_cons _ _ _ _ hf]
    exact step

/-- C10 counterexample: every in-window attempt fails retryably, the single
post-timeout CreateAnalyzer call succeeds — yet Create fails, because the
delegated post-create Read fails; so Create's success is not equivalent to the
final call's success. -/
theorem access_analyzer_create_timeout_counterexample :
    resourceAwsAccessAnalyzerAnalyzerCreate "an-1"
        (some { code := "ValidationException", message := "You must create an organization" })
        [] none
        (Except.error { code := "ThrottlingException", message := "rate exceeded" }) =
      ReadResult.err "error getting Access Analyzer Analyzer (an-1): rate exceeded" := by
  rfl

/-- C10 (amended): when every attempt inside the 10-minute window fails with the
retryable organization error, exactly one further CreateAnalyzer call is made
outside the loop and the creation phase's outcome is that of this final call —
the stale retryable error is never surfaced; a failing final call is annotated
and returned, and a successful final call makes Create delegate to the
post-create Read (which may itself still fail). -/
theorem access_analyzer_create_timeout_spec (name : String) (first : Option AwsError)
    (rest : List (Option AwsError)) (finalAttempt : Option AwsError)
    (readResult : Except AwsError GetAnalyzerOutput)
    (h : ∀ x ∈ first :: rest, ∃ e, x = some e ∧ accessAnalyzerCreateRetryable e = true) :
    resourceAwsAccessAnalyzerAnalyzerCreate name first rest finalAttempt readResult =
      match finalAttempt with
      | some e =>
        ReadResult.err ( "error creating Access Analyzer Analyzer (" ++ name ++ "): " ++ e.message)
      | none => resourceAwsAccessAnalyzerAnalyzerRead name true readResult := by
  obtain ⟨e, he, _⟩ := retryLoop_all_retryable accessAnalyzerCreateRetryable first rest h
  simp only [resourceAwsAccessAnalyzerAnalyzerCreate]
  rw [he]

/-- Witness for C10 (amended) at concrete inputs: two retryable attempts, a
failing final call whose error is the one surfaced. -/
theorem access_analyzer_create_timeout_spec_witness :
    resourceAwsAccessAnalyzerAnalyzerCreate "an-1"
        (some { code := "ValidationException", message := "You must create an organization" })
        [some { code := "ValidationException", message := "You must create an organization" }]
        (some { code := "ServiceQuotaExceededException", message := "too many analyzers" })
        (Except.ok { analyzer := none }) =
      ReadResult.err
        ( "error creating Access Analyzer Analyzer (" ++ "an-1" ++ "): " ++ "too many analyzers") :=
  access_analyzer_create_timeout_spec "an-1"
    (some { code := "ValidationException", message := "You must create an organization" })
    [some { code := "ValidationException", message := "You must create an organization" }]
    (some { code := "ServiceQuotaExceededException", message := "too many analyzers" })
    (Except.ok { analyzer := none })
    (by
      intro x hx
      simp only [List.mem_cons, List.not_mem_nil, or_false] at hx
      rcases hx with rfl | rfl
      · exact ⟨_, rfl, by decide⟩
      · exact ⟨_, rfl, by decide⟩)

/- ------------------------------------------------------------------ -/
/- C5: force-destroy cleanup of the snapshot schedule                 -/
/- ------------------------------------------------------------------ -/

/-- A disassociation loop whose outcomes are all skipped (success or the two
not-found codes) completes without error. -/
theorem redshiftDisassociateClustersLoop_skipped (sid : String)
    (modifyResult : String → Option AwsError) (l : List ClusterAssociation)
    (h : ∀ a ∈ l, redshiftDisassocSkipped (modifyResult a.clusterIdentifier) = true) :
    redshiftDisassociateClustersLoop sid modifyResult l = none := by
  induction l with
  | nil => rfl
  | cons a rest ih =>
    have ha := h a (List.mem_cons_self _ _)
    have ih2 := ih (fun x hx => h x (List.mem_cons_of_mem _ hx))
    rw [redshiftDisassociateClustersLoop]
    cases hma : modifyResult a.clusterIdentifier with
    | none => exact ih2
    | some e =>
      rw [hma] at ha
      simp only [redshiftDisassocSkipped, Bool.or_eq_true] at ha
      rcases ha with h1 | h1
      · simp [h1, ih2]
      · by_cases h2 : errMessageContains e errCodeClusterNotFoundFault "" = true
        · simp [h2, ih2]
        · simp only [Bool.not_eq_true] at h2
          simp [h1, h2, ih2]

/-- The first fatal (non-skipped) disassociation outcome aborts the loop with the
underlying error surfaced in the annotated message. -/
theorem redshiftDisassociateClustersLoop_fatal (sid : String)
    (modifyResult : String → Option AwsError)
    (pre : List ClusterAssociation) (c : ClusterAssociation) (post : List ClusterAssociation)
    (e : AwsError)
    (hpre : ∀ a ∈ pre, redshiftDisassocSkipped (modifyResult a.clusterIdentifier) = true)
    (hc : modifyResult c.clusterIdentifier = some e)
    (he : redshiftDisassocSkipped (some e) = false) :
    redshiftDisassociateClustersLoop sid modifyResult (pre ++ c :: post) =
      some ( "Error disassociate Redshift Cluster (" ++ c.clusterIdentifier ++
             ") and Snapshot Schedule (" ++ sid ++ ") Association: " ++ e.message) := by
  simp only [redshiftDisassocSkipped, Bool.or_eq_false_iff] at he
  induction pre with
  | nil =>
    rw [List.nil_append, redshiftDisassociateClustersLoop, hc]
    simp [he.1, he.2]
  | cons a as ih =>
    have ha := hpre a (List.mem_cons_self _ _)
    have ih2 := ih (fun x hx => hpre x (List.mem_cons_of_mem _ hx))
    rw [List.cons_append, redshiftDisassociateClustersLoop]
    cases hma : modifyResult a.clusterIdentifier with
    | none => exact ih2
    | some e2 =>
      rw [hma] at ha
      simp only [redshiftDisassocSkipped, Bool.or_eq_true] at ha
      rcases ha with h1 | h1
      · simp [h1, ih2]
      · by_cases h2 : errMessageContains e2 errCodeClusterNotFoundFault "" = true
        · simp [h2, ih2]
        · simp only [Bool.not_eq_true] at h2
          simp [h1, h2, ih2]

/-- A wait loop whose outcomes are all confirmations completes without error. -/
theorem redshiftWaitAssociationsLoop_ok (sid : String)
    (waitOutcome : Nat → String → String → Option String) (l : List ClusterAssociation)
    (h : ∀ a ∈ l, waitOutcome (75 * timeMinute) a.clusterIdentifier sid = none) :
    redshiftWaitAssociationsLoop sid waitOutcome l = none := by
  induction l with
  | nil => rfl
  | cons a rest ih =>
    rw [redshiftWaitAssociationsLoop, waitForRedshiftSnapshotScheduleAssociationDestroy,
        h a (List.mem_cons_self _ _)]
    exact ih (fun x hx => h x (List.mem_cons_of_mem _ hx))

/-- The force-destroy Delete on a well-formed Describe response runs the
disassociation loop, then the wait loop, and only then the schedule deletion. -/
theorem redshiftDelete_force_ok (sid : String) (s : SnapshotSchedule)
    (modifyResult : String → Option AwsError)
    (waitOutcome : Nat → String → String → Option String)
    (deleteResult : Option AwsError) :
    resourceAwsRedshiftSnapshotScheduleDelete sid true
        (Except.ok { snapshotSchedules := [s] }) modifyResult waitOutcome deleteResult =
      match redshiftDisassociateClustersLoop sid modifyResult s.associatedClusters with
      | some msg => some msg
      | none =>
        match redshiftWaitAssociationsLoop sid waitOutcome s.associatedClusters with
        | some msg => some msg
        | none => redshiftDeleteScheduleCall sid deleteResult := by
  simp only [resourceAwsRedshiftSnapshotScheduleDelete,
             resourceAwsRedshiftSnapshotScheduleDeleteAllAssociatedClusters]
  cases redshiftDisassociateClustersLoop sid modifyResult s.associatedClusters with
  | some msg => rfl
  | none =>
    cases redshiftWaitAssociationsLoop sid waitOutcome s.associatedClusters with
    | some msg => rfl
    | none => rfl

/-- C5 counterexample: the single disassociation call fails with
`ClusterNotFound`, yet the delete is not aborted — it completes successfully,
contradicting the claim that any disassociation failure aborts the whole delete. -/
theorem snapshot_schedule_force_destroy_counterexample :
    resourceAwsRedshiftSnapshotScheduleDelete "sched-1" true
        (Except.ok { snapshotSchedules := [
          { scheduleIdentifier := some "sched-1", scheduleDescription := none,
            scheduleDefinitions := [], tags := [],
            associatedClusters := [ { clusterIdentifier := "cluster-1" } ] } ] })
        (fun _ => some { code := "ClusterNotFound", message := "cluster is gone" })
        (fun _ _ _ => none)
        none = none := by
  rfl

/-- C5 (amended): with force_destroy set the Delete enumerates the schedule's
associated clusters and issues one disassociate call per cluster; a
disassociation failure other than the skipped cluster-not-found and
schedule-not-found codes aborts the whole delete with the underlying error
surfaced, regardless of the final deletion's outcome; when every disassociation
is skipped or succeeds, the Delete waits (bounded by 75 minutes per association)
for every disassociation to be confirmed — a wait failure aborts before the
deletion — and only after all confirmations issues the schedule deletion itself. -/
theorem snapshot_schedule_force_destroy_spec (sid : String) (s : SnapshotSchedule)
    (modifyResult : String → Option AwsError)
    (waitOutcome : Nat → String → String → Option String)
    (deleteResult : Option AwsError) :
    (∀ (pre post : List ClusterAssociation) (c : ClusterAssociation) (e : AwsError),
      s.associatedClusters = pre ++ c :: post →
      (∀ a ∈ pre, redshiftDisassocSkipped (modifyResult a.clusterIdentifier) = true) →
      modifyResult c.clusterIdentifier = some e →
      redshiftDisassocSkipped (some e) = false →
      resourceAwsRedshiftSnapshotScheduleDelete sid true
          (Except.ok { snapshotSchedules := [s] }) modifyResult waitOutcome deleteResult =
        some ( "Error disassociate Redshift Cluster (" ++ c.clusterIdentifier ++
               ") and Snapshot Schedule (" ++ sid ++ ") Association: " ++ e.message))
    ∧ ((∀ a ∈ s.associatedClusters,
          redshiftDisassocSkipped (modifyResult a.clusterIdentifier) = true) →
       (∀ a ∈ s.associatedClusters,
          waitOutcome (75 * timeMinute) a.clusterIdentifier sid = none) →
      resourceAwsRedshiftSnapshotScheduleDelete sid true
          (Except.ok { snapshotSchedules := [s] }) modifyResult waitOutcome deleteResult =
        redshiftDeleteScheduleCall sid deleteResult)
    ∧ (∀ (c : ClusterAssociation) (msg : String),
      s.associatedClusters = [c] →
      redshiftDisassocSkipped (modifyResult c.clusterIdentifier) = true →
      waitOutcome (75 * timeMinute) c.clusterIdentifier sid = some msg →
      resourceAwsRedshiftSnapshotScheduleDelete sid true
          (Except.ok { snapshotSchedules := [s] }) modifyResult waitOutcome deleteResult =
        some msg) := by
  refine ⟨?_, ?_, ?_⟩
  · intro pre post c e hsplit hpre hc he
    rw [redshiftDelete_force_ok, hsplit,
        redshiftDisassociateClustersLoop_fatal sid modifyResult pre c post e hpre hc he]
  · intro hskip hwait
    rw [redshiftDelete_force_ok,
        redshiftDisassociateClustersLoop_skipped sid modifyResult _ hskip,
        redshiftWaitAssociationsLoop_ok sid waitOutcome _ hwait]
  · intro c msg hsingle hskip hwait
    rw [redshiftDelete_force_ok, hsingle,
        redshiftDisassociateClustersLoop_skipped sid modifyResult [c]
          (by intro a ha; rw [List.mem_singleton] at ha; rw [ha]; exact hskip),
        redshiftWaitAssociationsLoop, waitForRedshiftSnapshotScheduleAssociationDestroy, hwait]

/-- Witness for C5 (amended) at concrete inputs: a throttling error on the only
disassociation aborts the delete; with no associated clusters the delete goes
through to the schedule deletion; a wait failure aborts the delete. -/
theorem snapshot_schedule_force_destroy_spec_witness :
    resourceAwsRedshiftSnapshotScheduleDelete "sched-1" true
        (Except.ok { snapshotSchedules := [
          { scheduleIdentifier := some "sched-1", scheduleDescription := none,
            scheduleDefinitions := [], tags := [],
            associatedClusters := [ { clusterIdentifier := "cluster-1" } ] } ] })
        (fun _ => some { code := "Throttling", message := "too fast" })
        (fun _ _ _ => none) none =
      some ( "Error disassociate Redshift Cluster (" ++ "cluster-1" ++
             ") and Snapshot Schedule (" ++ "sched-1" ++ ") Association: " ++ "too fast")
    ∧ resourceAwsRedshiftSnapshotScheduleDelete "sched-1" true
        (Except.ok { snapshotSchedules := [
          { scheduleIdentifier := some "sched-1", scheduleDescription := none,
            scheduleDefinitions := [], tags := [], associatedClusters := [] } ] })
        (fun _ => none) (fun _ _ _ => none) none =
      redshiftDeleteScheduleCall "sched-1" none
    ∧ resourceAwsRedshiftSnapshotScheduleDelete "sched-1" true
        (Except.ok { snapshotSchedules := [
          { scheduleIdentifier := some "sched-1", scheduleDescription := none,
            scheduleDefinitions := [], tags := [],
            associatedClusters := [ { clusterIdentifier := "cluster-1" } ] } ] })
        (fun _ => none) (fun _ _ _ => some "wait failed") none =
      some "wait failed" :=
  ⟨(snapshot_schedule_force_destroy_spec "sched-1"
      { scheduleIdentifier := some "sched-1", scheduleDescription := none,
        scheduleDefinitions := [], tags := [],
        associatedClusters := [ { clusterIdentifier := "cluster-1" } ] }
      (fun _ => some { code := "Throttling", message := "too fast" })
      (fun _ _ _ => none) none).1
     [] [] { clusterIdentifier := "cluster-1" } { code := "Throttling", message := "too fast" }
     rfl (by intro a ha; exact absurd ha (List.not_mem_nil a)) rfl (by decide),
   (snapshot_schedule_force_destroy_spec "sched-1"
      { scheduleIdentifier := some "sched-1", scheduleDescription := none,
        scheduleDefinitions := [], tags := [], associatedClusters := [] }
      (fun _ => none) (fun _ _ _ => none) none).2.1
     (by intro a ha; exact absurd ha (List.not_mem_nil a))
     (by intro a ha; exact absurd ha (List.not_mem_nil a)),
   (snapshot_schedule_force_destroy_spec "sched-1"
      { scheduleIdentifier := some "sched-1", scheduleDescription := none,
        scheduleDefinitions := [], tags := [],
        associatedClusters := [ { clusterIdentifier := "cluster-1" } ] }
      (fun _ => none) (fun _ _ _ => some "wait failed") none).2.2
     { clusterIdentifier := "cluster-1" } "wait failed" rfl rfl rfl⟩

/- ------------------------------------------------------------------ -/
/- C6: the traffic mirror filter Update call pattern                  -/
/- ------------------------------------------------------------------ -/

/-- C6: the traffic mirror filter Update makes no API call at all when nothing
changed; when the network_services set changed it issues exactly one
`ModifyTrafficMirrorFilterNetworkServices` call, first in the trace, whose add
side is exactly new-minus-old and whose remove side is exactly old-minus-new,
each omitted when empty; the tag update call is issued exactly when the tag set
changed and the network modify did not abort; and when all issued modify calls
succeed the Update result is that of the delegated Read. -/
theorem ec2_update_spec (id : String) (o n : Finset String)
    (ot nt : Finset (String × String)) (modifyResult updateTagsResult : Option AwsError)
    (isNew : Bool) (describeResult : Except AwsError DescribeTrafficMirrorFiltersOutput)
    (meta : AwsClientMeta) :
    (o = n → ot = nt →
      resourceAwsEc2TrafficMirrorFilterUpdate id o n ot nt modifyResult updateTagsResult
          isNew describeResult meta =
        ([], resourceAwsEc2TrafficMirrorFilterRead id isNew describeResult meta))
    ∧ (o ≠ n →
      (resourceAwsEc2TrafficMirrorFilterUpdate id o n ot nt modifyResult updateTagsResult
          isNew describeResult meta).1.head? =
        some (Ec2ApiCall.modifyNetworkServices (buildModifyNetworkServicesInput id o n)))
    ∧ ((buildModifyNetworkServicesInput id o n).addNetworkServices =
        (if (n \ o).card > 0 then some (n \ o) else none)
      ∧ (buildModifyNetworkServicesInput id o n).removeNetworkServices =
        (if (o \ n).card > 0 then some (o \ n) else none))
    ∧ ((resourceAwsEc2TrafficMirrorFilterUpdate id o n ot nt modifyResult updateTagsResult
          isNew describeResult meta).1.countP isModifyNetworkServicesCall =
        if o = n then 0 else 1)
    ∧ ((resourceAwsEc2TrafficMirrorFilterUpdate id o n ot nt modifyResult updateTagsResult
          isNew describeResult meta).1.countP isUpdateTagsCall =
        if (o = n ∨ modifyResult = none) ∧ ot ≠ nt then 1 else 0)
    ∧ (modifyResult = none → updateTagsResult = none →
      (resourceAwsEc2TrafficMirrorFilterUpdate id o n ot nt modifyResult updateTagsResult
          isNew describeResult meta).2 =
        resourceAwsEc2TrafficMirrorFilterRead id isNew describeResult meta) := by
  refine ⟨?_, ?_, ⟨rfl, rfl⟩, ?_, ?_, ?_⟩
  · intro h1 h2
    simp [resourceAwsEc2TrafficMirrorFilterUpdate, ec2UpdateTagsPhase, h1, h2]
  · intro h1
    cases modifyResult <;>
      simp [resourceAwsEc2TrafficMirrorFilterUpdate, h1]
  · by_cases h1 : o = n <;> by_cases h2 : ot = nt <;>
      cases modifyResult <;> cases updateTagsResult <;>
      simp [resourceAwsEc2TrafficMirrorFilterUpdate, ec2UpdateTagsPhase, h1, h2,
            isModifyNetworkServicesCall, isUpdateTagsCall, List.countP_cons, List.countP_nil]
  · by_cases h1 : o = n <;> by_cases h2 : ot = nt <;>
      cases modifyResult <;> cases updateTagsResult <;>
      simp [resourceAwsEc2TrafficMirrorFilterUpdate, ec2UpdateTagsPhase, h1, h2,
            isModifyNetworkServicesCall, isUpdateTagsCall, List.countP_cons, List.countP_nil]
  · intro h1 h2
    by_cases h3 : o = n <;> by_cases h4 : ot = nt <;>
      simp [resourceAwsEc2TrafficMirrorFilterUpdate, ec2UpdateTagsPhase, h1, h2, h3, h4]

/-- Witness for C6 at concrete inputs: an unchanged Update makes no call; a
changed network_services set produces the one modify call with the exact
differences. -/
theorem ec2_update_spec_witness :
    resourceAwsEc2TrafficMirrorFilterUpdate "tmf-1" ∅ ∅ ∅ ∅ none none false
        (Except.ok { trafficMirrorFilters := [] })
        { partition := "aws", region := "us-east-1", accountID := "123456789012" } =
      ([], resourceAwsEc2TrafficMirrorFilterRead "tmf-1" false
        (Except.ok { trafficMirrorFilters := [] })
        { partition := "aws", region := "us-east-1", accountID := "123456789012" })
    ∧ (resourceAwsEc2TrafficMirrorFilterUpdate "tmf-1" ∅ { "amazon-dns"} ∅ ∅ none none false
        (Except.ok { trafficMirrorFilters := [] })
        { partition := "aws", region := "us-east-1", accountID := "123456789012" }).1.head? =
      some (Ec2ApiCall.modifyNetworkServices
        (buildModifyNetworkServicesInput "tmf-1" ∅ { "amazon-dns"})) :=
  ⟨(ec2_update_spec "tmf-1" ∅ ∅ ∅ ∅ none none false
      (Except.ok { trafficMirrorFilters := [] })
      { partition := "aws", region := "us-east-1", accountID := "123456789012" }).1 rfl rfl,
   (ec2_update_spec "tmf-1" ∅ { "amazon-dns"} ∅ ∅ none none false
      (Except.ok { trafficMirrorFilters := [] })
      { partition := "aws", region := "us-east-1", accountID := "123456789012" }).2.1
     (by decide)⟩

/- ------------------------------------------------------------------ -/
/- C7: default-tag merging with resource precedence                   -/
/- ------------------------------------------------------------------ -/

theorem tagLookup_append (a b : Tags) (k : String) :
    tagLookup (a ++ b) k =
      match tagLookup a k with
      | some v => some v
      | none => tagLookup b k := by
  induction a with
  | nil => rfl
  | cons p rest ih =>
    obtain ⟨k1, v1⟩ := p
    by_cases h : k1 = k
    · simp [tagLookup, h]
    · simp [tagLookup, h, ih]

theorem tagLookup_filter_some (defaultTags resourceTags : Tags) (k v : String)
    (h : tagLookup resourceTags k = some v) :
    tagLookup (defaultTags.filter (fun p => (tagLookup resourceTags p.1).isNone)) k = none := by
  induction defaultTags with
  | nil => rfl
  | cons p rest ih =>
    obtain ⟨k1, v1⟩ := p
    by_cases hk : k1 = k
    · subst hk
      simp [List.filter_cons, h, ih]
    · by_cases hp : (tagLookup resourceTags k1).isNone = true
      · simp [List.filter_cons, hp, tagLookup, hk, ih]
      · simp [List.filter_cons, hp, ih]

theorem tagLookup_filter_none (defaultTags resourceTags : Tags) (k : String)
    (h : tagLookup resourceTags k = none) :
    tagLookup (defaultTags.filter (fun p => (tagLookup resourceTags p.1).isNone)) k =
      tagLookup defaultTags k := by
  induction defaultTags with
  | nil => rfl
  | cons p rest ih =>
    obtain ⟨k1, v1⟩ := p
    by_cases hk : k1 = k
    · subst hk
      simp [List.filter_cons, h, tagLookup, ih]
    · by_cases hp : (tagLookup resourceTags k1).isNone = true
      · simp [List.filter_cons, hp, tagLookup, hk, ih]
      · simp [List.filter_cons, hp, tagLookup, hk, ih]

/-- The merged tag set looks up to the resource-level value when present and to
the default value otherwise. -/
theorem tagLookup_mergeTags (defaultTags resourceTags : Tags) (k : String) :
    tagLookup (mergeTags defaultTags resourceTags) k =
      match tagLookup resourceTags k with
      | some v => some v
      | none => tagLookup defaultTags k := by
  unfold mergeTags
  rw [tagLookup_append]
  cases h : tagLookup resourceTags k with
  | some v => rw [tagLookup_filter_some defaultTags resourceTags k v h]
  | none =>
    rw [tagLookup_filter_none defaultTags resourceTags k h]
    cases hd : tagLookup defaultTags k <;> simp [hd, h]

/-- C7: the tag set sent by every Create is the merge of the process-wide
default tags with the resource's declared tags — on any key present in both the
resource-level value wins, and default values survive otherwise; the spec's
example merges to the expected map; the Access Analyzer, Redshift snapshot
schedule and EC2 traffic mirror filter Create request builders all send exactly
this merged set (the EC2 one omitting the field when the merge is empty). -/
theorem create_tags_merge_spec (defaultTags resourceTags : Tags) (k : String) :
    (tagLookup (mergeTags defaultTags resourceTags) k =
      match tagLookup resourceTags k with
      | some v => some v
      | none => tagLookup defaultTags k)
    ∧ mergeTags [( "a", "1")] [( "a", "2"), ( "b", "3")] = [( "a", "2"), ( "b", "3")]
    ∧ (∀ name clientToken type,
        (buildCreateAnalyzerInput name clientToken type defaultTags resourceTags).tags =
          mergeTags defaultTags resourceTags)
    ∧ (∀ identifier definitions description,
        (buildCreateSnapshotScheduleInput identifier definitions defaultTags resourceTags
          description).tags = mergeTags defaultTags resourceTags)
    ∧ (∀ description,
        (buildCreateTrafficMirrorFilterInput description defaultTags resourceTags).tagSpecifications =
          if (mergeTags defaultTags resourceTags).length > 0 then
            some (mergeTags defaultTags resourceTags)
          else none) :=
  ⟨tagLookup_mergeTags defaultTags resourceTags k, by decide,
   fun _ _ _ => rfl, fun _ _ _ => rfl, fun _ => rfl⟩

/- ------------------------------------------------------------------ -/
/- C8: error annotation and propagation                               -/
/- ------------------------------------------------------------------ -/

/-- C8 counterexample: the Redshift snapshot schedule Create propagates its
error annotated only with the resource type — the message does not contain the
requested identifier, so not every propagated error carries the resource ID. -/
theorem error_context_counterexample :
    resourceAwsRedshiftSnapshotScheduleCreate "sched-1"
        (Except.error { code := "Throttling", message := "rate exceeded" })
        (Except.ok { snapshotSchedules := [] })
        { partition := "aws", region := "us-east-1", accountID := "123456789012" } =
      ReadResult.err "Error creating Redshift Snapshot Schedule: rate exceeded"
    ∧ strContains "Error creating Redshift Snapshot Schedule: rate exceeded" "sched-1" = false :=
  ⟨rfl, by decide⟩

/-- C8 (amended): no unexpected error is swallowed — each of the six error paths
below returns an error — and every propagated error message is annotated with
the resource type; the Delete errors and the Access Analyzer Create error also
carry the resource ID/name, but the Redshift snapshot schedule and EC2 traffic
mirror filter Create errors carry no identifier (only the underlying error and
the type annotation). -/
theorem error_context_spec (id : String) (e : AwsError) :
    (accessAnalyzerCreateRetryable e = false →
      ∀ (rest : List (Option AwsError)) (finalAttempt : Option AwsError)
        (readResult : Except AwsError GetAnalyzerOutput),
      ∃ m, resourceAwsAccessAnalyzerAnalyzerCreate id (some e) rest finalAttempt readResult =
            ReadResult.err m
        ∧ strContains m "Access Analyzer Analyzer" = true
        ∧ strContains m id = true ∧ strContains m e.message = true)
    ∧ (∀ (describeResult : Except AwsError DescribeSnapshotSchedulesOutput)
        (meta : AwsClientMeta),
      ∃ m, resourceAwsRedshiftSnapshotScheduleCreate id (Except.error e) describeResult meta =
            ReadResult.err m
        ∧ strContains m "Redshift Snapshot Schedule" = true
        ∧ strContains m e.message = true)
    ∧ (∀ (networkServices : Option (Finset String)) (modifyResult : Option AwsError)
        (describeResult : Except AwsError DescribeTrafficMirrorFiltersOutput)
        (meta : AwsClientMeta),
      ∃ m, resourceAwsEc2TrafficMirrorFilterCreate none networkServices (Except.error e)
            modifyResult describeResult meta = ReadResult.err m
        ∧ strContains m "traffic filter" = true
        ∧ strContains m e.message = true)
    ∧ (e.code ≠ errCodeResourceNotFoundException →
      ∃ m, resourceAwsAccessAnalyzerAnalyzerDelete id (some e) = some m
        ∧ strContains m "Access Analyzer Analyzer" = true
        ∧ strContains m id = true ∧ strContains m e.message = true)
    ∧ (e.code ≠ errCodeSnapshotScheduleNotFoundFault →
      ∃ m, redshiftDeleteScheduleCall id (some e) = some m
        ∧ strContains m "Redshift Snapshot Schedule" = true
        ∧ strContains m id = true ∧ strContains m e.message = true)
    ∧ (∃ m, resourceAwsEc2TrafficMirrorFilterDelete id (some e) = some m
        ∧ strContains m "traffic mirror filter" = true
        ∧ strContains m id = true ∧ strContains m e.message = true) := by
  refine ⟨?_, ?_, ?_, ?_, ?_, ?_⟩
  · intro h rest finalAttempt readResult
    refine ⟨ "error creating Access Analyzer Analyzer (" ++ id ++ "): " ++ e.message,
            analyzerCreate_nonretryable id e rest finalAttempt readResult h, ?_, ?_, ?_⟩
    · exact strContains_extend_right _ _ _ (strContains_extend_right _ _ _
        (strContains_extend_right _ _ _ (by decide)))
    · exact strContains_around4 _ _ _ _
    · exact strContains_suffix _ _
  · intro describeResult meta
    refine ⟨ "Error creating Redshift Snapshot Schedule: " ++ e.message, rfl, ?_, ?_⟩
    · exact strContains_extend_right _ _ _ (by decide)
    · exact strContains_suffix _ _
  · intro networkServices modifyResult describeResult meta
    refine ⟨ "Error while creating traffic filter " ++ e.message, rfl, ?_, ?_⟩
    · exact strContains_extend_right _ _ _ (by decide)
    · exact strContains_suffix _ _
  · intro h
    refine ⟨ "error deleting Access Analyzer Analyzer (" ++ id ++ "): " ++ e.message,
            ?_, ?_, ?_, ?_⟩
    · simp [resourceAwsAccessAnalyzerAnalyzerDelete, errMessageContains, beq_iff_eq, h]
    · exact strContains_extend_right _ _ _ (strContains_extend_right _ _ _
        (strContains_extend_right _ _ _ (by decide)))
    · exact strContains_around4 _ _ _ _
    · exact strContains_suffix _ _
  · intro h
    refine ⟨ "Error deleting Redshift Snapshot Schedule " ++ id ++ ": " ++ e.message,
            ?_, ?_, ?_, ?_⟩
    · simp [redshiftDeleteScheduleCall, errMessageContains, beq_iff_eq, h]
    · exact strContains_extend_right _ _ _ (strContains_extend_right _ _ _
        (strContains_extend_right _ _ _ (by decide)))
    · exact strContains_around4 _ _ _ _
    · exact strContains_suffix _ _
  · refine ⟨ "Error deleting traffic mirror filter " ++ id ++ ": " ++ e.message,
            rfl, ?_, ?_, ?_⟩
    · exact strContains_extend_right _ _ _ (strContains_extend_right _ _ _
        (strContains_extend_right _ _ _ (by decide)))
    · exact strContains_around4 _ _ _ _
    · exact strContains_suffix _ _

/-- Witness for C8 (amended) at concrete inputs. -/
theorem error_context_spec_witness :
    (∃ m, resourceAwsAccessAnalyzerAnalyzerDelete "an-1"
        (some { code := "AccessDenied", message := "denied" }) = some m
      ∧ strContains m "Access Analyzer Analyzer" = true
      ∧ strContains m "an-1" = true ∧ strContains m "denied" = true)
    ∧ (∃ m, resourceAwsAccessAnalyzerAnalyzerCreate "an-1"
        (some { code := "AccessDenied", message := "denied" }) [] none
        (Except.ok { analyzer := none }) = ReadResult.err m
      ∧ strContains m "Access Analyzer Analyzer" = true
      ∧ strContains m "an-1" = true ∧ strContains m "denied" = true) :=
  ⟨(error_context_spec "an-1" { code := "AccessDenied", message := "denied" }).2.2.2.1
     (by decide),
   (error_context_spec "an-1" { code := "AccessDenied", message := "denied" }).1
     (by decide) [] none (Except.ok { analyzer := none })⟩

/- ------------------------------------------------------------------ -/
/- C9: the schedule Read on a list without exactly one element        -/
/- ------------------------------------------------------------------ -/

/-- C9: whenever the Describe response's schedule list does not have exactly one
element — zero, or two or more — the Redshift snapshot schedule Read clears the
resource ID and succeeds, with no regard to whether the resource was just
created, and the force-destroy cleanup helper succeeds while skipping all
cleanup (its result does not depend on the disassociate or wait oracles). -/
theorem redshift_read_length_spec (id : String) (isNew : Bool)
    (resp : DescribeSnapshotSchedulesOutput) (meta : AwsClientMeta)
    (h : resp.snapshotSchedules.length ≠ 1) :
    resourceAwsRedshiftSnapshotScheduleRead id isNew (Except.ok resp) meta = ReadResult.cleared
    ∧ (∀ (modifyResult : String → Option AwsError)
        (waitOutcome : Nat → String → String → Option String),
        resourceAwsRedshiftSnapshotScheduleDeleteAllAssociatedClusters id (Except.ok resp)
          modifyResult waitOutcome = none) := by
  obtain ⟨schedules⟩ := resp
  simp only at h
  cases schedules with
  | nil => exact ⟨rfl, fun _ _ => rfl⟩
  | cons a tail =>
    cases tail with
    | nil => simp at h
    | cons b rest => exact ⟨rfl, fun _ _ => rfl⟩

/-- Witness for C9 at concrete inputs: the empty response and a two-element
response both clear the Read state and make the cleanup helper succeed. -/
theorem redshift_read_length_spec_witness :
    resourceAwsRedshiftSnapshotScheduleRead "sched-1" true
        (Except.ok { snapshotSchedules := [] })
        { partition := "aws", region := "us-east-1", accountID := "123456789012" } =
      ReadResult.cleared
    ∧ resourceAwsRedshiftSnapshotScheduleRead "sched-1" true
        (Except.ok { snapshotSchedules := [
          { scheduleIdentifier := some "sched-1", scheduleDescription := none,
            scheduleDefinitions := [], tags := [], associatedClusters := [] },
          { scheduleIdentifier := some "sched-1", scheduleDescription := none,
            scheduleDefinitions := [], tags := [], associatedClusters := [] } ] })
        { partition := "aws", region := "us-east-1", accountID := "123456789012" } =
      ReadResult.cleared
    ∧ resourceAwsRedshiftSnapshotScheduleDeleteAllAssociatedClusters "sched-1"
        (Except.ok { snapshotSchedules := [] })
        (fun _ => some { code := "Throttling", message := "too fast" })
        (fun _ _ _ => some "wait failed") = none :=
  ⟨(redshift_read_length_spec "sched-1" true { snapshotSchedules := [] }
      { partition := "aws", region := "us-east-1", accountID := "123456789012" }
      (by decide)).1,
   (redshift_read_length_spec "sched-1" true
      { snapshotSchedules := [
        { scheduleIdentifier := some "sched-1", scheduleDescription := none,
          scheduleDefinitions := [], tags := [], associatedClusters := [] },
        { scheduleIdentifier := some "sched-1", scheduleDescription := none,
          scheduleDefinitions := [], tags := [], associatedClusters := [] } ] }
      { partition := "aws", region := "us-east-1", accountID := "123456789012" }
      (by decide)).1,
   (redshift_read_length_spec "sched-1" true { snapshotSchedules := [] }
      { partition := "aws", region := "us-east-1", accountID := "123456789012" }
      (by decide)).2
     (fun _ => some { code := "Throttling", message := "too fast" })
     (fun _ _ _ => some "wait failed")⟩
